import Mathlib

/-!
Verification of the t-shirt design customizer (React/TypeScript) against its
natural-language specification.

The development shallowly embeds the parts of the source the claims are
about:
* the element store and its mutation operations (`src/src/App.tsx`,
  component `Designer`);
* the placement-surface commits (`onResizeStop`, the rotation slider);
* the export workflow (`src/src/hooks/useExport.ts`) and the modal-closing
  handler `handleExportFormat` (`src/src/App.tsx`), together with the
  busy-flag gating of the UI buttons (`src/src/components/ExportModal.tsx`).

React state (`useState`) is modelled by explicit state records threaded
through the operations; the browser/DOM environment (ref availability,
dom-to-image success, measured rectangle, `Math.random` draws, data URLs,
timestamps) is modelled as explicit inputs.
-/

namespace TShirt

/-- The `View` union type of `App.tsx` line 23:
`'front' | 'back' | 'sleeve-left' | 'sleeve-right'`. -/
inductive View
  | front
  | back
  | sleeveLeft
  | sleeveRight
deriving DecidableEq, Repr

/-- A value of the TypeScript field type `width: number | string`
(`App.tsx` lines 31-32).  In the source three shapes occur:
the string `'auto'` (text elements at creation), a plain JS number
(images are created with `150`), and a CSS pixel-length string such as
`'200px'` (what `ref.style.width` holds when `onResizeStop` commits).
`Dim.auto` models `'auto'`, `Dim.num n` models the JS number `n`, and
`Dim.px n` models the CSS string `'<n>px'`. -/
inductive Dim
  | auto
  | num (n : Int)
  | px (n : Int)
deriving DecidableEq, Repr

/-- Whether the stored dimension is the auto-sizing marker `'auto'`. -/
def Dim.isAuto : Dim → Bool
  | .auto => true
  | _ => false

/-- Whether the stored dimension is a plain JS number (as opposed to a
string such as `'auto'` or `'200px'`). -/
def Dim.isNum : Dim → Bool
  | .num _ => true
  | _ => false

/-- Whether the stored dimension is a CSS pixel-length string `'<n>px'`. -/
def Dim.isPx : Dim → Bool
  | .px _ => true
  | _ => false

/-- The `'text' | 'image'` discriminator of `DesignElement.type`
(`App.tsx` line 27). -/
inductive ElemKind
  | text
  | image
deriving DecidableEq, Repr

/-- The `DesignElement` interface of `App.tsx` lines 25-38.  The optional
TypeScript fields `color?`, `fontSize?`, `fontFamily?` become `Option`s. -/
structure DesignElement where
  id : String
  type : ElemKind
  content : String
  x : Int
  y : Int
  width : Dim
  height : Dim
  rotation : Int
  color : Option String
  fontSize : Option Int
  fontFamily : Option String
  view : View
deriving DecidableEq, Repr

/-- A `Partial<DesignElement>` as passed to `updateElement`
(`App.tsx` line 145): each field is either absent (`none`) or supplies a
replacement value.  Only the fields the application ever patches are
modelled; `id`, `type` and `view` are never part of an update in the
source. -/
structure ElementPatch where
  content : Option String := none
  x : Option Int := none
  y : Option Int := none
  width : Option Dim := none
  height : Option Dim := none
  rotation : Option Int := none
  color : Option String := none
  fontSize : Option Int := none
  fontFamily : Option String := none
deriving DecidableEq, Repr

/-- The spread `{ ...el, ...updates }` of `App.tsx` line 146: a shallow
merge where every field present in the patch replaces the element's
field and absent fields are untouched. -/
def applyPatch (el : DesignElement) (p : ElementPatch) : DesignElement :=
  { el with
    content := p.content.getD el.content
    x := p.x.getD el.x
    y := p.y.getD el.y
    width := p.width.getD el.width
    height := p.height.getD el.height
    rotation := p.rotation.getD el.rotation
    color := match p.color with | some c => some c | none => el.color
    fontSize := match p.fontSize with | some n => some n | none => el.fontSize
    fontFamily := match p.fontFamily with | some f => some f | none => el.fontFamily }

/-- The `ShirtConfig` interface of `App.tsx` lines 40-43. -/
structure ShirtConfig where
  color : String
  view : View
deriving DecidableEq, Repr

/-- The `Designer` component state that the claims are about
(`App.tsx` lines 85-90): garment config, the element store, and the
current selection. -/
structure DesignerState where
  config : ShirtConfig
  elements : List DesignElement
  selectedId : Option String
deriving DecidableEq, Repr

/-- The initial `Designer` state (`App.tsx` lines 85-90): white shirt,
front view, no elements, nothing selected. -/
def initialState : DesignerState :=
  { config := { color := "#ffffff", view := View.front }
    elements := []
    selectedId := none }

/-- The id generator `Math.random().toString(36).substr(2, 9)` of
`App.tsx` lines 105 and 128.  The argument is the string form
`Math.random().toString(36)` of the draw (e.g. `"0.k3j2h4g5f6"`);
`substr(2, 9)` keeps nine characters starting after the leading `"0."`. -/
def genId (mathRandomBase36 : String) : String :=
  String.mk ((mathRandomBase36.data.drop 2).take 9)

/-- The element literal `newText` built by `addText`
(`App.tsx` lines 104-117). -/
def newText (config : ShirtConfig) (id : String) : DesignElement :=
  { id := id
    type := ElemKind.text
    content := "YOUR TEXT"
    x := 100
    y := 100
    width := Dim.auto
    height := Dim.auto
    rotation := 0
    color := some (if config.color = "#1a1a1a" then "#ffffff" else "#000000")
    fontSize := some 24
    fontFamily := some "Inter"
    view := config.view }

/-- The element literal `newImage` built inside `handleImageUpload`
(`App.tsx` lines 127-137); `content` is the data URL produced by the
`FileReader`. -/
def newImage (config : ShirtConfig) (id : String) (dataUrl : String) : DesignElement :=
  { id := id
    type := ElemKind.image
    content := dataUrl
    x := 100
    y := 100
    width := Dim.num 150
    height := Dim.num 150
    rotation := 0
    color := none
    fontSize := none
    fontFamily := none
    view := config.view }

/-- `addText` (`App.tsx` lines 103-120): appends the new text element and
selects it.  `rand` is the `Math.random().toString(36)` draw consumed by
the id generator. -/
def addText (rand : String) (st : DesignerState) : DesignerState :=
  let t := newText st.config (genId rand)
  { st with elements := st.elements ++ [t], selectedId := some t.id }

/-- The `reader.onload` body of `handleImageUpload`
(`App.tsx` lines 126-140): appends the new image element (its `content`
being the decoded data URL) and selects it. -/
def handleImageUpload (rand : String) (dataUrl : String) (st : DesignerState) :
    DesignerState :=
  let t := newImage st.config (genId rand) dataUrl
  { st with elements := st.elements ++ [t], selectedId := some t.id }

/-- `updateElement` (`App.tsx` lines 145-147): shallow-merges the patch
into the element with the given id, leaving all other elements alone. -/
def updateElement (els : List DesignElement) (id : String) (p : ElementPatch) :
    List DesignElement :=
  els.map fun el => if el.id = id then applyPatch el p else el

/-- `deleteElement` (`App.tsx` lines 149-152): removes the element with
the given id and unconditionally clears the selection. -/
def deleteElement (st : DesignerState) (id : String) : DesignerState :=
  { st with
    elements := st.elements.filter (fun el => !(el.id == id))
    selectedId := none }

/-- The view filter `filteredElements` (`App.tsx` line 154):
`elements.filter((el) => el.view === config.view)`. -/
def filteredElements (els : List DesignElement) (view : View) : List DesignElement :=
  els.filter fun el => el.view == view

/-- The `onResizeStop` commit (`App.tsx` lines 577-583): stores
`ref.style.width` / `ref.style.height` — CSS pixel-length strings — and
the (possibly moved) position, through `updateElement`. -/
def onResizeStop (els : List DesignElement) (id : String)
    (styleWidth styleHeight posX posY : Int) : List DesignElement :=
  updateElement els id
    { width := some (Dim.px styleWidth)
      height := some (Dim.px styleHeight)
      x := some posX
      y := some posY }

/-- The `onDragStop` commit (`App.tsx` line 576): stores the released
position through `updateElement`. -/
def onDragStop (els : List DesignElement) (id : String) (dx dy : Int) :
    List DesignElement :=
  updateElement els id { x := some dx, y := some dy }

/-- The rotation slider commit (`App.tsx` lines 416-427): the slider is a
range input with `min="0"` and `max="360"`, and every change commits
`{ rotation: parseInt(e.target.value) }` through `updateElement`. -/
def rotationSliderPatch (v : Int) : ElementPatch :=
  { rotation := some v }

/-- One user-level operation on the `Designer` state: the two add
actions, an `updateElement` call, a `deleteElement` call, the view
switcher (`App.tsx` lines 516-535, which also clears the selection), and
the colour swatches (`App.tsx` line 249). -/
inductive StoreOp
  | addTextOp (rand : String)
  | addImageOp (rand : String) (dataUrl : String)
  | updateOp (id : String) (p : ElementPatch)
  | removeOp (id : String)
  | setViewOp (v : View)
  | setColorOp (c : String)
deriving DecidableEq, Repr

/-- Interpretation of one operation on the `Designer` state. -/
def runOp (st : DesignerState) : StoreOp → DesignerState
  | .addTextOp r => addText r st
  | .addImageOp r url => handleImageUpload r url st
  | .updateOp id p => { st with elements := updateElement st.elements id p }
  | .removeOp id => deleteElement st id
  | .setViewOp v =>
      { st with config := { st.config with view := v }, selectedId := none }
  | .setColorOp c =>
      { st with config := { st.config with color := c } }

/-- A sequence of operations, applied left to right. -/
def runOps (st : DesignerState) (ops : List StoreOp) : DesignerState :=
  ops.foldl runOp st

/-- An add request, used to talk about sequences that consist only of the
two add actions: the `Math.random().toString(36)` draw consumed by the id
generator, plus the data URL for images. -/
inductive AddReq
  | text (rand : String)
  | image (rand : String) (dataUrl : String)
deriving DecidableEq, Repr

/-- The store operation performed by an add request. -/
def AddReq.toOp : AddReq → StoreOp
  | .text r => StoreOp.addTextOp r
  | .image r url => StoreOp.addImageOp r url

/-- The random draw consumed by an add request. -/
def AddReq.rand : AddReq → String
  | .text r => r
  | .image r _ => r

/-- The ids currently held in the element store, in insertion order. -/
def ids (st : DesignerState) : List String :=
  st.elements.map fun el => el.id

/-! ## Export pipeline (`src/src/hooks/useExport.ts`,
`src/src/components/ExportModal.tsx`, `handleExportFormat` in
`src/src/App.tsx`) -/

/-- The `ExportFormat` union of `useExport.ts` line 5. -/
inductive ExportFormat
  | png
  | jpg
  | pdf
deriving DecidableEq, Repr

/-- The file extension of a format, as concatenated into the download
name in `exportAsFile`. -/
def ExportFormat.ext : ExportFormat → String
  | .png => "png"
  | .jpg => "jpg"
  | .pdf => "pdf"

/-- The offscreen canvas produced by `captureCanvas`
(`useExport.ts` lines 45-50): a bitmap buffer sized to the measured
container rectangle. -/
structure Canvas where
  width : Int
  height : Int
deriving DecidableEq, Repr

/-- The browser environment `captureCanvas` interacts with:
whether `ref.current` is non-null, whether the dom-to-image render /
image decode succeeds (any throw inside the `try` is caught and turned
into `null`), and the rounded `getBoundingClientRect` dimensions. -/
structure CaptureEnv where
  refAvailable : Bool
  renderOk : Bool
  rectWidth : Int
  rectHeight : Int
deriving DecidableEq, Repr

/-- `captureCanvas` (`useExport.ts` lines 24-55): returns `null` when the
container ref is unavailable, catches every render/decode failure and
returns `null` for those too, and otherwise yields a canvas sized to the
measured rectangle.  It never partially applies a bitmap. -/
def captureCanvas (env : CaptureEnv) : Option Canvas :=
  if !env.refAvailable then
    none
  else if env.renderOk then
    some { width := env.rectWidth, height := env.rectHeight }
  else
    none

/-- A triggered browser download: the anchor `click()` for png/jpg, or
`pdf.save(...)` for pdf. -/
structure Download where
  filename : String
  format : ExportFormat
deriving DecidableEq, Repr

/-- The `useExport` hook state (`useExport.ts` lines 21-22):
`isExporting` and `exportError`. -/
structure ExportState where
  isExporting : Bool
  exportError : Option String
deriving DecidableEq, Repr

/-- `exportAsFile` (`useExport.ts` lines 57-111), run from call to
completion.  The function begins with `setIsExporting(true)` and
`setExportError(null)`, never reading the previous hook state — in
particular it contains no busy-flag guard, which is why the `st`
parameter does not occur in the body.  If the capture yields no canvas
it throws `Failed to capture the design canvas.`, caught below and
stored as the error with no download; otherwise each of the three format
branches triggers exactly one download named
`<filename>-<timestamp>.<ext>`.  The `finally` clause sets
`isExporting` back to `false` on both paths. -/
def exportAsFile (env : CaptureEnv) (filename : String) (timestamp : Nat)
    (format : ExportFormat) (_st : ExportState) : ExportState × List Download :=
  match captureCanvas env with
  | none =>
      ({ isExporting := false
         exportError := some "Failed to capture the design canvas." }, [])
  | some _canvas =>
      ({ isExporting := false, exportError := none },
       [{ filename := filename ++ "-" ++ toString timestamp ++ "." ++ format.ext
          format := format }])

/-- `exportComposite` (`useExport.ts` lines 113-117): declared multi-view
export that simply defers to `exportAsFile` for the current view. -/
def exportComposite (env : CaptureEnv) (filename : String) (timestamp : Nat)
    (format : ExportFormat) (_views : List String) (st : ExportState) :
    ExportState × List Download :=
  exportAsFile env filename timestamp format st

/-- JavaScript truthiness test `!x` for a `string | null` value, as used
by `if (!exportError)` in `handleExportFormat` (`App.tsx` line 166):
`null` and the empty string are falsy. -/
def jsFalsy : Option String → Bool
  | none => true
  | some s => s == ""

/-- Whether a format button of the export modal is disabled
(`ExportModal.tsx` line 89: `disabled={isExporting}`); the main export
button (`App.tsx` line 470) uses the same condition. -/
def formatButtonDisabled (isExporting : Bool) : Bool :=
  isExporting

/-- A click on a format button of the export modal: a disabled HTML
button fires no `onClick`, so no `onExport(format)` call is issued while
an export is in flight; otherwise the chosen format is dispatched. -/
def clickFormatButton (isExporting : Bool) (format : ExportFormat) :
    Option ExportFormat :=
  if formatButtonDisabled isExporting then none else some format

/-- The workflow state visible to `handleExportFormat`: the hook state
plus the `showExportModal` flag of `Designer` (`App.tsx` line 92). -/
structure ModalExportState where
  isExporting : Bool
  exportError : Option String
  showExportModal : Bool
deriving DecidableEq, Repr

/-- `handleExportFormat` (`App.tsx` lines 163-171):
`await exportAsFile(format); if (!exportError) setShowExportModal(false)`.
The `exportError` read by the `if` is the value captured by the
`useCallback` closure when the handler was created — the hook state as of
the moment of the call, not the value the awaited attempt just wrote. -/
def handleExportFormat (env : CaptureEnv) (filename : String) (timestamp : Nat)
    (format : ExportFormat) (st : ModalExportState) :
    ModalExportState × List Download :=
  let closureError := st.exportError
  let r := exportAsFile env filename timestamp format
    { isExporting := st.isExporting, exportError := st.exportError }
  let st1 : ModalExportState :=
    { isExporting := r.1.isExporting
      exportError := r.1.exportError
      showExportModal := st.showExportModal }
  if jsFalsy closureError then
    ({ st1 with showExportModal := false }, r.2)
  else
    (st1, r.2)

/-! ## Helper lemmas -/

/-- `updateElement` with an id matched by no element maps every element
to itself. -/
lemma updateElement_eq_self (els : List DesignElement) (id : String)
    (p : ElementPatch) (h : ∀ el ∈ els, el.id ≠ id) :
    updateElement els id p = els := by
  induction els with
  | nil => rfl
  | cons a t ih =>
      have ha : ¬ (a.id = id) := h a (List.mem_cons_self a t)
      simp only [updateElement, List.map_cons, if_neg ha, List.cons.injEq, true_and]
      exact ih fun el hel => h el (List.mem_cons_of_mem a hel)

/-- A demonstration element: the text element `addText` creates on the
initial (white, front) configuration with id `"abc"`. -/
def demoTextElem : DesignElement :=
  newText initialState.config "abc"

/-- Both add actions append their new element at the end of the store
and select its freshly generated id. -/
lemma add_appends_and_selects (st : DesignerState) (rand url : String) :
    (addText rand st).elements =
      st.elements ++ [newText st.config (genId rand)] ∧
    (addText rand st).selectedId = some (genId rand) ∧
    (handleImageUpload rand url st).elements =
      st.elements ++ [newImage st.config (genId rand) url] ∧
    (handleImageUpload rand url st).selectedId = some (genId rand) := by
  refine ⟨?_, ?_, ?_, ?_⟩
  · show st.elements ++ [newText st.config (genId rand)] = _
    rfl
  · rfl
  · show st.elements ++ [newImage st.config (genId rand) url] = _
    rfl
  · rfl

/-- The creation defaults of a new text element (`App.tsx` lines
104-117). -/
lemma newText_fields (c : ShirtConfig) (i : String) :
    (newText c i).id = i ∧
    (newText c i).type = ElemKind.text ∧
    (newText c i).content = "YOUR TEXT" ∧
    (newText c i).x = 100 ∧
    (newText c i).y = 100 ∧
    (newText c i).width = Dim.auto ∧
    (newText c i).height = Dim.auto ∧
    (newText c i).rotation = 0 ∧
    ((newText c i).color = some "#ffffff" ↔ c.color = "#1a1a1a") ∧
    (c.color ≠ "#1a1a1a" → (newText c i).color = some "#000000") ∧
    (newText c i).fontSize = some 24 ∧
    (newText c i).fontFamily = some "Inter" ∧
    (newText c i).view = c.view := by
  refine ⟨rfl, rfl, rfl, rfl, rfl, rfl, rfl, rfl, ?_, ?_, rfl, rfl, rfl⟩
  · by_cases hc : c.color = "#1a1a1a" <;> simp [newText, hc]
  · intro hc
    simp [newText, hc]

/-- The creation defaults of a new image element (`App.tsx` lines
127-137). -/
lemma newImage_fields (c : ShirtConfig) (i url : String) :
    (newImage c i url).id = i ∧
    (newImage c i url).type = ElemKind.image ∧
    (newImage c i url).content = url ∧
    (newImage c i url).x = 100 ∧
    (newImage c i url).y = 100 ∧
    (newImage c i url).width = Dim.num 150 ∧
    (newImage c i url).height = Dim.num 150 ∧
    (newImage c i url).rotation = 0 ∧
    (newImage c i url).view = c.view :=
  ⟨rfl, rfl, rfl, rfl, rfl, rfl, rfl, rfl, rfl⟩

/-- Whether a patch's rotation, when present, lies within [0, 360]. -/
def patchRotationOk (p : ElementPatch) : Bool :=
  match p.rotation with
  | none => true
  | some r => decide (0 ≤ r ∧ r ≤ 360)

/-- Whether an operation supplies only in-range rotation values.  Every
rotation writer in the application is the slider, a range input with
`min="0"` and `max="360"`, so every update the UI can issue satisfies
this. -/
def opRotationOk : StoreOp → Bool
  | .updateOp _ p => patchRotationOk p
  | _ => true

/-- All rotations stored in a collection lie within [0, 360]. -/
def rotationsInRange (els : List DesignElement) : Prop :=
  ∀ el ∈ els, 0 ≤ el.rotation ∧ el.rotation ≤ 360

/-- A shallow merge with an in-range (or absent) rotation keeps the
element's rotation in range. -/
lemma rotationsInRange_applyPatch {el : DesignElement} {p : ElementPatch}
    (hel : 0 ≤ el.rotation ∧ el.rotation ≤ 360)
    (hp : patchRotationOk p = true) :
    0 ≤ (applyPatch el p).rotation ∧ (applyPatch el p).rotation ≤ 360 := by
  have hrw : (applyPatch el p).rotation = p.rotation.getD el.rotation := rfl
  rw [hrw]
  unfold patchRotationOk at hp
  cases hr : p.rotation with
  | none => simpa using hel
  | some r =>
      rw [hr] at hp
      simpa using of_decide_eq_true hp

/-- One operation with in-range rotation input preserves the rotation
invariant. -/
lemma rotationsInRange_runOp {st : DesignerState} {op : StoreOp}
    (h : rotationsInRange st.elements) (hop : opRotationOk op = true) :
    rotationsInRange (runOp st op).elements := by
  cases op with
  | addTextOp r =>
      intro el hel
      have he : (runOp st (StoreOp.addTextOp r)).elements =
          st.elements ++ [newText st.config (genId r)] := rfl
      rw [he] at hel
      rcases List.mem_append.mp hel with hmem | hmem
      · exact h el hmem
      · rw [List.mem_singleton.mp hmem]
        show (0 : Int) ≤ 0 ∧ (0 : Int) ≤ 360
        decide
  | addImageOp r url =>
      intro el hel
      have he : (runOp st (StoreOp.addImageOp r url)).elements =
          st.elements ++ [newImage st.config (genId r) url] := rfl
      rw [he] at hel
      rcases List.mem_append.mp hel with hmem | hmem
      · exact h el hmem
      · rw [List.mem_singleton.mp hmem]
        show (0 : Int) ≤ 0 ∧ (0 : Int) ≤ 360
        decide
  | updateOp id p =>
      intro el hel
      have he : (runOp st (StoreOp.updateOp id p)).elements =
          (st.elements.map fun a => if a.id = id then applyPatch a p else a) := rfl
      rw [he] at hel
      rcases List.mem_map.mp hel with ⟨a, ha, rfl⟩
      by_cases hc : a.id = id
      · rw [if_pos hc]
        exact rotationsInRange_applyPatch (h a ha) hop
      · rw [if_neg hc]
        exact h a ha
  | removeOp id =>
      intro el hel
      have he : (runOp st (StoreOp.removeOp id)).elements =
          st.elements.filter (fun a => !(a.id == id)) := rfl
      rw [he] at hel
      exact h el (List.mem_filter.mp hel).1
  | setViewOp v =>
      intro el hel
      exact h el hel
  | setColorOp c =>
      intro el hel
      exact h el hel

/-- The ids the store gains when an add request runs. -/
lemma ids_runOp_add (st : DesignerState) (rq : AddReq) :
    ids (runOp st rq.toOp) = ids st ++ [genId rq.rand] := by
  cases rq with
  | text r =>
      show ((st.elements ++ [newText st.config (genId r)]).map fun el => el.id) = _
      rw [List.map_append]
      rfl
  | image r url =>
      show ((st.elements ++ [newImage st.config (genId r) url]).map fun el => el.id) = _
      rw [List.map_append]
      rfl

/-- Running a sequence of add requests appends exactly the generated ids,
in order. -/
lemma ids_runAdds (st : DesignerState) (reqs : List AddReq) :
    ids (runOps st (reqs.map AddReq.toOp)) =
      ids st ++ reqs.map (fun rq => genId rq.rand) := by
  induction reqs generalizing st with
  | nil => simp [runOps, ids]
  | cons rq rest ih =>
      show ids (runOps (runOp st rq.toOp) (rest.map AddReq.toOp)) = _
      rw [ih (runOp st rq.toOp), ids_runOp_add]
      simp

/-- A browser environment in which the capture succeeds: the preview ref
is mounted, the dom-to-image render works, and the container measures
632 × 632 CSS pixels. -/
def goodEnv : CaptureEnv :=
  { refAvailable := true, renderOk := true, rectWidth := 632, rectHeight := 632 }

/-- A browser environment in which the capture cannot obtain the preview
container: `ref.current` is `null`. -/
def failEnv : CaptureEnv :=
  { refAvailable := false, renderOk := true, rectWidth := 632, rectHeight := 632 }

/-- The hook state while an export attempt is in flight. -/
def busyState : ExportState :=
  { isExporting := true, exportError := none }

/-! ## Claims -/

/-- Claim C9: `deleteElement` unconditionally sets the selection to
`none` — also when the removed id was not the selected element, or is
absent from the store entirely. -/
theorem C9_delete_clears_selection :
    ∀ (st : DesignerState) (id : String),
      (deleteElement st id).selectedId = none := by
  intro st id
  rfl

/-- Claim C6: for an id matched by no stored element, `updateElement`
and `deleteElement` leave the element collection unchanged; both are
total functions, so no error is raised. -/
theorem C6_unknown_id_noop (st : DesignerState) (id : String) (p : ElementPatch)
    (h : ∀ el ∈ st.elements, el.id ≠ id) :
    updateElement st.elements id p = st.elements ∧
    (deleteElement st id).elements = st.elements := by
  constructor
  · exact updateElement_eq_self st.elements id p h
  · show st.elements.filter (fun el => !(el.id == id)) = st.elements
    apply List.filter_eq_self.mpr
    intro a ha
    simpa using h a ha

/-- Witness for C6 at a concrete input: a store holding one element with
id `"abc"` is untouched by an update and a delete aimed at `"zzz"`. -/
theorem C6_witness :
    updateElement [demoTextElem] "zzz" { rotation := some 90 } = [demoTextElem] ∧
    (deleteElement { initialState with elements := [demoTextElem] } "zzz").elements =
      [demoTextElem] :=
  C6_unknown_id_noop { initialState with elements := [demoTextElem] } "zzz"
    { rotation := some 90 } (by decide)

/-- Claim C7: the view filter returns exactly the ordered subsequence of
elements whose `view` equals the active view (a sublist of the store,
containing an element iff it is stored with a matching view); in the
scenario that adds a text element on `front`, switches to `back` and adds
an image element, filtering on `front` yields exactly the text element
and filtering on `back` exactly the image element. -/
theorem C7_view_filter :
    (∀ (es : List DesignElement) (v : View),
        (filteredElements es v).Sublist es ∧
        (∀ el, el ∈ filteredElements es v ↔ el ∈ es ∧ el.view = v)) ∧
    (∀ (r1 r2 url : String),
        filteredElements
            (runOps initialState
              [StoreOp.addTextOp r1, StoreOp.setViewOp View.back,
               StoreOp.addImageOp r2 url]).elements View.front =
          [newText initialState.config (genId r1)] ∧
        filteredElements
            (runOps initialState
              [StoreOp.addTextOp r1, StoreOp.setViewOp View.back,
               StoreOp.addImageOp r2 url]).elements View.back =
          [newImage { color := "#ffffff", view := View.back } (genId r2) url]) := by
  constructor
  · intro es v
    refine ⟨List.filter_sublist es, fun el => ?_⟩
    simp [filteredElements, List.mem_filter]
  · intro r1 r2 url
    constructor <;> rfl

/-- Witness for C7 at a concrete input: the demonstration text element
(anchored to `front`) is returned by the view filter on `front`. -/
theorem C7_witness :
    demoTextElem ∈ filteredElements [demoTextElem] View.front :=
  ((C7_view_filter.1 [demoTextElem] View.front).2 demoTextElem).mpr
    ⟨List.mem_cons_self demoTextElem [], rfl⟩

/-- Claim C10: each add appends the new element at the end of the store
and selects it; a new text element carries content `YOUR TEXT`, position
(100, 100), auto width and height, rotation 0, fontSize 24, fontFamily
`Inter`, and colour `#ffffff` exactly when the garment colour is
`#1a1a1a` (otherwise `#000000`); a new image element carries a fixed
150 × 150 size and rotation 0; both are anchored to the view active at
creation time. -/
theorem C10_add_defaults :
    (∀ (st : DesignerState) (rand url : String),
        (addText rand st).elements =
          st.elements ++ [newText st.config (genId rand)] ∧
        (addText rand st).selectedId = some (genId rand) ∧
        (handleImageUpload rand url st).elements =
          st.elements ++ [newImage st.config (genId rand) url] ∧
        (handleImageUpload rand url st).selectedId = some (genId rand)) ∧
    (∀ (c : ShirtConfig) (i : String),
        (newText c i).id = i ∧
        (newText c i).type = ElemKind.text ∧
        (newText c i).content = "YOUR TEXT" ∧
        (newText c i).x = 100 ∧
        (newText c i).y = 100 ∧
        (newText c i).width = Dim.auto ∧
        (newText c i).height = Dim.auto ∧
        (newText c i).rotation = 0 ∧
        ((newText c i).color = some "#ffffff" ↔ c.color = "#1a1a1a") ∧
        (c.color ≠ "#1a1a1a" → (newText c i).color = some "#000000") ∧
        (newText c i).fontSize = some 24 ∧
        (newText c i).fontFamily = some "Inter" ∧
        (newText c i).view = c.view) ∧
    (∀ (c : ShirtConfig) (i url : String),
        (newImage c i url).id = i ∧
        (newImage c i url).type = ElemKind.image ∧
        (newImage c i url).content = url ∧
        (newImage c i url).x = 100 ∧
        (newImage c i url).y = 100 ∧
        (newImage c i url).width = Dim.num 150 ∧
        (newImage c i url).height = Dim.num 150 ∧
        (newImage c i url).rotation = 0 ∧
        (newImage c i url).view = c.view) :=
  ⟨add_appends_and_selects, newText_fields, newImage_fields⟩

/-- Witness for C10 at concrete inputs: on a white shirt the new text is
black, on the black (`#1a1a1a`) shirt it is white, and adding text to the
initial state selects the freshly generated id. -/
theorem C10_witness :
    (newText { color := "#ffffff", view := View.front } "x").color =
      some "#000000" ∧
    (newText { color := "#1a1a1a", view := View.back } "y").color =
      some "#ffffff" ∧
    (addText "0.abcdefghi" initialState).selectedId = some "abcdefghi" := by
  refine ⟨?_, ?_, ?_⟩
  · exact (C10_add_defaults.2.1 { color := "#ffffff", view := View.front } "x").2.2.2.2.2.2.2.2.2.1
      (by decide)
  · exact ((C10_add_defaults.2.1 { color := "#1a1a1a", view := View.back } "y").2.2.2.2.2.2.2.2.1).mpr
      rfl
  · have h := (C10_add_defaults.1 initialState "0.abcdefghi" "u").2.1
    simpa using h

/-- Claim C2 counterexample: `updateElement` performs no clamping — an
update supplying rotation 400 stores 400, which exceeds 360, so the
stored rotation is not always within [0, 360] regardless of the supplied
value. -/
theorem C2_counterexample :
    (updateElement [demoTextElem] "abc" { rotation := some 400 }).map
        (fun el => el.rotation) = [400] ∧
    decide ((400 : Int) ≤ 360) = false := by
  constructor
  · decide
  · decide

/-- Claim C2 (amended): `updateElement` stores the supplied rotation
verbatim; the invariant that every stored rotation lies within [0, 360]
holds for every operation sequence whose rotation updates carry values
in [0, 360] — which all in-app writers do, the slider being a range input
with `min="0"` and `max="360"`. -/
theorem C2_rotation_invariant (ops : List StoreOp) (st : DesignerState)
    (h0 : rotationsInRange st.elements)
    (hops : ∀ op ∈ ops, opRotationOk op = true) :
    rotationsInRange (runOps st ops).elements := by
  induction ops generalizing st with
  | nil => exact h0
  | cons op rest ih =>
      exact ih (runOp st op)
        (rotationsInRange_runOp h0 (hops op (List.mem_cons_self op rest)))
        (fun o ho => hops o (List.mem_cons_of_mem op ho))

/-- Witness for the amended C2 at a concrete input: adding a text element
and rotating it to 360 through the slider leaves every stored rotation in
[0, 360]. -/
theorem C2_witness :
    rotationsInRange (runOps initialState
      [StoreOp.addTextOp "0.abcdefghi",
       StoreOp.updateOp "abcdefghi" (rotationSliderPatch 360)]).elements :=
  C2_rotation_invariant
    [StoreOp.addTextOp "0.abcdefghi",
     StoreOp.updateOp "abcdefghi" (rotationSliderPatch 360)]
    initialState (fun el hel => absurd hel (List.not_mem_nil el)) (by decide)

/-- Claim C3 counterexample: the resize commit stores `ref.style.width`,
a CSS pixel-length string such as `'200px'` — not a plain JS number —
so the committed width is a fixed pixel length but not a numeric value. -/
theorem C3_counterexample :
    (onResizeStop [demoTextElem] "abc" 200 100 10 20).map
        (fun el => el.width) = [Dim.px 200] ∧
    Dim.isNum (Dim.px 200) = false ∧
    Dim.isAuto (Dim.px 200) = false := by
  refine ⟨by decide, rfl, rfl⟩

/-- Claim C3 (amended): a committed resize stores fixed CSS pixel
lengths (never `'auto'`) for width and height, plus the new position, on
the targeted element — so the first resize of an auto-sized text element
converts it to fixed dimensions, and every later resize only updates the
pixel lengths and never reverts the element to auto. -/
theorem C3_resize_commit (els : List DesignElement) (id : String)
    (w h dx dy : Int) :
    ∀ el ∈ onResizeStop els id w h dx dy, el.id = id →
      el.width = Dim.px w ∧ el.height = Dim.px h ∧
      el.width.isAuto = false ∧ el.height.isAuto = false ∧
      el.x = dx ∧ el.y = dy := by
  intro el hel hid
  rcases List.mem_map.mp hel with ⟨a, ha, rfl⟩
  by_cases hc : a.id = id
  · rw [if_pos hc]
    exact ⟨rfl, rfl, rfl, rfl, rfl, rfl⟩
  · rw [if_neg hc] at hid
    exact absurd hid hc

/-- The element produced by resizing the demonstration auto-sized text
element to 200 × 100 pixels at position (10, 20). -/
def c3Committed : DesignElement :=
  applyPatch demoTextElem
    { width := some (Dim.px 200), height := some (Dim.px 100)
      x := some 10, y := some 20 }

/-- Witness for the amended C3 at a concrete input: resizing the
auto-sized demonstration text element commits fixed pixel dimensions. -/
theorem C3_witness :
    c3Committed.width = Dim.px 200 ∧ c3Committed.height = Dim.px 100 ∧
    c3Committed.width.isAuto = false ∧ c3Committed.height.isAuto = false ∧
    c3Committed.x = 10 ∧ c3Committed.y = 20 :=
  C3_resize_commit [demoTextElem] "abc" 200 100 10 20 c3Committed
    (by decide) (by decide)

/-- Claim C8 counterexample: the id is derived from `Math.random()` with
no collision check, so two adds whose random draws coincide produce two
stored elements with the same id — ids are not unconditionally unique. -/
theorem C8_counterexample :
    ids (addText "0.abcdefghi" (addText "0.abcdefghi" initialState)) =
      ["abcdefghi", "abcdefghi"] ∧
    decide ((["abcdefghi", "abcdefghi"] : List String).Nodup) = false := by
  constructor
  · decide
  · decide

/-- Claim C8 (amended): each add stores an element whose id is the next
random draw truncated to nine base-36 characters; after a sequence of
adds the stored ids are pairwise distinct whenever the derived id strings
are pairwise distinct and distinct from the ids already stored — the
store itself performs no uniqueness check. -/
theorem C8_ids_nodup (st : DesignerState) (reqs : List AddReq)
    (h : (ids st ++ reqs.map fun rq => genId rq.rand).Nodup) :
    (ids (runOps st (reqs.map AddReq.toOp))).Nodup := by
  rw [ids_runAdds]
  exact h

/-- Witness for the amended C8 at a concrete input: a text add and an
image add with distinct random draws leave the store with distinct ids. -/
theorem C8_witness :
    (ids (runOps initialState
      ([AddReq.text "0.abcdefghi", AddReq.image "0.123456789" "data:image/png"].map
        AddReq.toOp))).Nodup :=
  C8_ids_nodup initialState
    [AddReq.text "0.abcdefghi", AddReq.image "0.123456789" "data:image/png"]
    (by decide)

/-- Claim C1 counterexample: `exportAsFile` contains no busy-flag guard —
a call made while the hook state is busy (`isExporting = true`) still
runs a full export and triggers a download, so a second call while one is
in flight is not a no-op. -/
theorem C1_counterexample :
    (exportAsFile goodEnv "t-shirt-design-front" 1712 ExportFormat.png
        busyState).2 =
      [{ filename := "t-shirt-design-front-1712.png"
         format := ExportFormat.png }] ∧
    (exportAsFile goodEnv "t-shirt-design-front" 1712 ExportFormat.png
        busyState).2.length = 1 := by
  constructor
  · decide
  · decide

/-- Claim C1 (amended): the export operation itself never consults the
busy flag — its result is identical from any prior hook state — and the
single-export-in-flight property is enforced at the UI layer instead:
while `isExporting` is true the modal's format buttons (and the export
button) are disabled, so no second export call can be issued through the
UI; when not busy the click dispatches the chosen format. -/
theorem C1_ui_gates_concurrent_export :
    (∀ (env : CaptureEnv) (fn : String) (ts : Nat) (fmt : ExportFormat)
        (st st' : ExportState),
        exportAsFile env fn ts fmt st = exportAsFile env fn ts fmt st') ∧
    (∀ fmt : ExportFormat, clickFormatButton true fmt = none) ∧
    (∀ fmt : ExportFormat, clickFormatButton false fmt = some fmt) :=
  ⟨fun _ _ _ _ _ _ => rfl, fun _ => rfl, fun _ => rfl⟩

/-- Claim C4 (code bug): `handleExportFormat` decides whether to close
the modal from the `exportError` captured by its `useCallback` closure —
the pre-attempt value — not the value the awaited attempt just wrote.
Consequently a failing first attempt (stale error `null`) closes the
modal even though an error was recorded, so the message is never
surfaced; and a successful attempt following a failed one (stale error
non-null) leaves the modal open. -/
theorem C4_stale_error_check :
    handleExportFormat failEnv "t-shirt-design-front" 1712 ExportFormat.png
        { isExporting := false, exportError := none, showExportModal := true } =
      ({ isExporting := false
         exportError := some "Failed to capture the design canvas."
         showExportModal := false }, []) ∧
    handleExportFormat goodEnv "t-shirt-design-front" 1712 ExportFormat.png
        { isExporting := false
          exportError := some "Failed to capture the design canvas."
          showExportModal := true } =
      ({ isExporting := false, exportError := none, showExportModal := true },
       [{ filename := "t-shirt-design-front-1712.png"
          format := ExportFormat.png }]) := by
  constructor
  · decide
  · decide

/-- Claim C5: every export attempt yields exactly one of success or
error — either exactly one download is triggered and no error is stored,
or no download is triggered and a non-empty error message is stored (in
particular when the capture pipeline cannot obtain the preview
container) — and in either case the attempt ends with the busy flag
cleared. -/
theorem C5_exactly_one_outcome :
    ∀ (env : CaptureEnv) (fn : String) (ts : Nat) (fmt : ExportFormat)
      (st : ExportState),
      (exportAsFile env fn ts fmt st).1.isExporting = false ∧
      Xor'
        ((exportAsFile env fn ts fmt st).2.length = 1 ∧
         (exportAsFile env fn ts fmt st).1.exportError = none)
        ((exportAsFile env fn ts fmt st).2 = [] ∧
         ∃ m, (exportAsFile env fn ts fmt st).1.exportError = some m ∧ m ≠ "") := by
  intro env fn ts fmt st
  cases hc : captureCanvas env with
  | none =>
      have he : exportAsFile env fn ts fmt st =
          ({ isExporting := false
             exportError := some "Failed to capture the design canvas." }, []) := by
        unfold exportAsFile
        rw [hc]
      rw [he]
      refine ⟨rfl,
        Or.inr ⟨⟨rfl, "Failed to capture the design canvas.", rfl, by decide⟩, ?_⟩⟩
      rintro ⟨h1, -⟩
      simp at h1
  | some c =>
      have he : exportAsFile env fn ts fmt st =
          ({ isExporting := false, exportError := none },
           [{ filename := fn ++ "-" ++ toString ts ++ "." ++ fmt.ext
              format := fmt }]) := by
        unfold exportAsFile
        rw [hc]
      rw [he]
      refine ⟨rfl, Or.inl ⟨⟨rfl, rfl⟩, ?_⟩⟩
      rintro ⟨h1, -⟩
      simp at h1

/-- Witness for C5 at a concrete input: in the environment where the
preview ref is unavailable, the attempt ends non-busy with the fixed
non-empty capture-failure message and no download. -/
theorem C5_witness :
    (exportAsFile failEnv "t-shirt-design-front" 1712 ExportFormat.pdf
        busyState).1.isExporting = false ∧
    Xor'
      ((exportAsFile failEnv "t-shirt-design-front" 1712 ExportFormat.pdf
          busyState).2.length = 1 ∧
       (exportAsFile failEnv "t-shirt-design-front" 1712 ExportFormat.pdf
          busyState).1.exportError = none)
      ((exportAsFile failEnv "t-shirt-design-front" 1712 ExportFormat.pdf
          busyState).2 = [] ∧
       ∃ m, (exportAsFile failEnv "t-shirt-design-front" 1712 ExportFormat.pdf
          busyState).1.exportError = some m ∧ m ≠ "") :=
  C5_exactly_one_outcome failEnv "t-shirt-design-front" 1712 ExportFormat.pdf
    busyState

end TShirt
